import Mathlib

/-!
Verification of the OCR-to-PDF conversion scripts.

The development shallowly embeds the numeric and list-processing logic of
the repository:
  * word-box text placement from create_editable_pdf
    (PDFc_SearchableandEditable.py),
  * the paragraph reflow heuristic from create_text_only_pdf_clean,
  * chunk orchestration from process_in_chunks (PDFc_Searchable_only.py),
  * the per-page OCR extraction wrappers extract_text_from_page of both
    scripts, with the fallible external calls modelled as Except values.

Pixel coordinates and point coordinates are modelled as rationals; the
scripts use Python floats, but every claim under scrutiny is about the
exact arithmetic of the formulas.  Python strings are modelled as lists
of characters (Python strings are sequences of code points), with the
string primitives the scripts use - strip, endswith, len, isupper,
join - re-implemented structurally below.
-/

/-- Python strings are sequences of code points. -/
abbrev PyStr := List Char

/-- Python str.strip with no argument: remove leading and trailing
whitespace characters. -/
def pyStrip (s : PyStr) : PyStr :=
  ((s.dropWhile Char.isWhitespace).reverse.dropWhile Char.isWhitespace).reverse

/-- Python str.endswith with a single-character suffix. -/
def pyEndsWith (s : PyStr) (c : Char) : Bool :=
  s.getLast? = some c

/-- Python single-space str.join over a list of fragments. -/
def joinSpace (parts : List PyStr) : PyStr :=
  List.intercalate [' '] parts

/-- Python str.isupper on ASCII text: at least one cased character and
every cased character upper-case. -/
def pyIsUpper (s : PyStr) : Bool :=
  s.any (fun c => c.isAlpha) && s.all (fun c => !c.isAlpha || c.isUpper)

/-- One recognized word from the OCR engine's data dictionary: the text
token, its bounding box in pixels at the rasterization dpi, and the
confidence score.  Fields mirror the columns of the pytesseract DICT
output used by create_editable_pdf. -/
structure WordBox where
  text : PyStr
  left : ℚ
  top : ℚ
  width : ℚ
  height : ℚ
  conf : ℚ
deriving DecidableEq

/-- Source line 525: x = boxes[left][i] * 72.0 / dpi. -/
def xPt (dpi : ℚ) (b : WordBox) : ℚ := b.left * 72 / dpi

/-- Source line 527: y = page_height - (boxes[top][i] + boxes[height][i]) * 72.0 / dpi. -/
def yPt (pageHeight dpi : ℚ) (b : WordBox) : ℚ :=
  pageHeight - (b.top + b.height) * 72 / dpi

/-- Source line 547: prev_width = boxes[width][i-1] * 72.0 / dpi. -/
def widthPt (dpi : ℚ) (b : WordBox) : ℚ := b.width * 72 / dpi

/-- Source line 530: font_size = boxes[height][i] * 72.0 / dpi. -/
def rawFontSize (dpi : ℚ) (b : WordBox) : ℚ := b.height * 72 / dpi

/-- Source line 532: font_size = max(min(font_size, 14), 8). -/
def fontSize (dpi : ℚ) (b : WordBox) : ℚ :=
  max (min (rawFontSize dpi b) 14) 8

/-- Source line 544: abs(y - prev_y) < font_size / 2, the same-line
judgment between the previous box and the current box; font_size is the
current box's font size. -/
def sameLineJudged (pageHeight dpi : ℚ) (prev cur : WordBox) : Bool :=
  |yPt pageHeight dpi cur - yPt pageHeight dpi prev| < fontSize dpi cur / 2

/-- Source line 548: (x - (prev_x + prev_width)) < space_width * 3.
The space width is ReportLab's stringWidth of a single space at the
current font size, abstracted here as the function spaceW of the font
size. -/
def closeGap (spaceW : ℚ → ℚ) (dpi : ℚ) (prev cur : WordBox) : Bool :=
  xPt dpi cur - (xPt dpi prev + widthPt dpi prev) < spaceW (fontSize dpi cur) * 3

/-- One emitted drawString operation: position, font size and the word
drawn (source line 553: c.drawString(x, y, word) after setFont). -/
structure DrawOp where
  x : ℚ
  y : ℚ
  size : ℚ
  word : PyStr
deriving DecidableEq

/-- The body of the word loop of create_editable_pdf (source lines
520-553) for index i: skip boxes with conf not greater than 0 and boxes
whose stripped text is empty; otherwise compute the placement, shifting
x right by one space width when the previous raw box is judged same-line
and the horizontal gap is small. -/
def drawOpAt (spaceW : ℚ → ℚ) (pageHeight dpi : ℚ) (boxes : List WordBox)
    (i : ℕ) : Option DrawOp :=
  match boxes[i]? with
  | none => none
  | some b =>
    if 0 < b.conf then
      if pyStrip b.text = [] then none
      else
        some ⟨(match i with
               | 0 => xPt dpi b
               | j + 1 =>
                 match boxes[j]? with
                 | none => xPt dpi b
                 | some prev =>
                   if sameLineJudged pageHeight dpi prev b then
                     if closeGap spaceW dpi prev b then
                       xPt dpi b + spaceW (fontSize dpi b)
                     else xPt dpi b
                   else xPt dpi b),
              yPt pageHeight dpi b, fontSize dpi b, pyStrip b.text⟩
    else none

/-- All drawString operations emitted for one page, in loop order. -/
def drawOps (spaceW : ℚ → ℚ) (pageHeight dpi : ℚ) (boxes : List WordBox) :
    List DrawOp :=
  (List.range boxes.length).filterMap (drawOpAt spaceW pageHeight dpi boxes)

/-- Modelled from the spec: the script delegates space measurement to
ReportLab's stringWidth for the builtin Helvetica font, whose AFM width
for the space glyph is 278 units per 1000-unit em. -/
def helvSpaceWidth (fs : ℚ) : ℚ := 278 / 1000 * fs

/-- Concrete first word used in witnesses: Hello at the left edge. -/
def boxHello : WordBox := ⟨"Hello".data, 0, 0, 10, 10, 90⟩

/-- Concrete second word used in witnesses: world just right of Hello on
the same raster line. -/
def boxWorld : WordBox := ⟨"world".data, 12, 0, 10, 10, 90⟩

/-! Paragraph reflow heuristic of create_text_only_pdf_clean
(PDFc_SearchableandEditable.py, lines 300-321 and 335). -/

/-- State of the paragraph loop: the finished paragraphs and the
current paragraph buffer (current_para in the source). -/
structure ReflowState where
  paragraphs : List PyStr
  current : List PyStr
deriving DecidableEq

/-- Source line 313: line.endswith((chars period, bang, question,
colon, semicolon)). -/
def endsWithPunct (s : PyStr) : Bool :=
  pyEndsWith s '.' || pyEndsWith s '!' || pyEndsWith s '?' ||
    pyEndsWith s ':' || pyEndsWith s ';'

/-- One iteration of the loop over text.split of create_text_only_pdf_clean,
source lines 305-318: strip the line; a blank line flushes a nonempty
buffer; a line that ends in sentence punctuation or is shorter than 40
characters is appended to the buffer and the whole buffer flushed;
otherwise the line is accumulated. -/
def reflowStep (st : ReflowState) (rawLine : PyStr) : ReflowState :=
  let line := pyStrip rawLine
  if line = [] then
    if st.current = [] then st
    else ⟨st.paragraphs ++ [joinSpace st.current], []⟩
  else
    if endsWithPunct line || line.length < 40 then
      ⟨st.paragraphs ++ [joinSpace (st.current ++ [line])], []⟩
    else
      ⟨st.paragraphs, st.current ++ [line]⟩

/-- The whole paragraph-detection pass, including the trailing flush of
a nonempty buffer (source lines 320-321). -/
def reflow (lines : List PyStr) : List PyStr :=
  let st := lines.foldl reflowStep ⟨[], []⟩
  if st.current = [] then st.paragraphs
  else st.paragraphs ++ [joinSpace st.current]

/-- Source line 335: is_header = len(paragraph) < 60 and paragraph.isupper(). -/
def isHeading (p : PyStr) : Bool :=
  p.length < 60 && pyIsUpper p

/-! Chunk orchestration of process_in_chunks (PDFc_Searchable_only.py,
lines 214-226). -/

/-- Python range(0, stop, step) for a positive step: the arithmetic
progression 0, step, 2 step, ... of all multiples of step below stop,
of length the ceiling of stop divided by step (empty when step is 0,
where Python would raise instead). -/
def pyRange (stop step : ℕ) : List ℕ :=
  List.range' 0 ((stop + step - 1) / step) step

/-- Source lines 214-215: each loop iteration handles the chunk
starting at start_page with end_page = min(start_page + pages_per_chunk,
total_pages); the chunk holds the pages start_page to end_page - 1, so
its page count is end_page - start_page. -/
def chunkSpans (total ppc : ℕ) : List (ℕ × ℕ) :=
  (pyRange total ppc).map (fun s => (s, min (s + ppc) total - s))

/-- The page counts of the chunks, in order. -/
def chunkSizes (total ppc : ℕ) : List ℕ :=
  (chunkSpans total ppc).map (fun p => p.2)

/-! Per-page OCR extraction (extract_text_from_page in both scripts).
The external calls that can raise - page.get_pixmap plus tobytes,
PIL Image.open, pytesseract image_to_string and image_to_data - are
modelled as Except-valued fields of an environment; the try/except of
the source becomes a match on the composed result. -/

/-- Raw PNG bytes produced by pix.tobytes. -/
abbrev PixBytes := List ℕ

/-- The PIL image object, of which the scripts use only the pixel
dimensions. -/
structure PageImage where
  width : ℚ
  height : ℚ
deriving DecidableEq

/-- The fallible external calls made inside the try block of
extract_text_from_page, each either returning a value or raising
(modelled as an error message). -/
structure OcrEnv where
  getPixmap : Except String PixBytes
  imageOpen : PixBytes → Except String PageImage
  imageToString : PageImage → Except String PyStr
  imageToData : PageImage → Except String (List WordBox)

/-- The try-block body of extract_text_from_page in
PDFc_SearchableandEditable.py (lines 62-78): rasterize, open the image,
OCR to text, OCR to word boxes; any raising step aborts the body. -/
def ocrBodyBoxes (env : OcrEnv) :
    Except String (PyStr × PageImage × List WordBox) := do
  let pix ← env.getPixmap
  let img ← env.imageOpen pix
  let text ← env.imageToString img
  let boxes ← env.imageToData img
  pure (text, img, boxes)

/-- extract_text_from_page of PDFc_SearchableandEditable.py (lines
60-82): on success return the stripped text with the image and boxes;
on any exception return the empty string and None twice (lines 80-82). -/
def extract_text_from_page_boxes (env : OcrEnv) :
    PyStr × Option PageImage × Option (List WordBox) :=
  match ocrBodyBoxes env with
  | .ok (t, img, bxs) => (pyStrip t, some img, some bxs)
  | .error _ => ([], none, none)

/-- The try-block body of extract_text_from_page in
PDFc_Searchable_only.py (lines 50-62): rasterize, open the image, OCR
to text. -/
def ocrBodyText (env : OcrEnv) : Except String PyStr := do
  let pix ← env.getPixmap
  let img ← env.imageOpen pix
  env.imageToString img

/-- extract_text_from_page of PDFc_Searchable_only.py (lines 48-66):
the stripped text on success, the empty string on any exception. -/
def extract_text_from_page_text (env : OcrEnv) : PyStr :=
  match ocrBodyText env with
  | .ok t => pyStrip t
  | .error _ => []

/-! Page-level behaviour of the two PDF writers cited by the blank-page
policy: create_pdf_with_reportlab (one showPage per input page on both
the normal and the exception path, lines 174-241) and
create_editable_pdf (only pages passing the text-and-image-and-boxes
test are composed and merged, lines 494-603). -/

/-- The result of extract_text_from_page_boxes for one page, as consumed
by the page loops. -/
abbrev ExtractResult := PyStr × Option PageImage × Option (List WordBox)

/-- Outcome of one iteration of the per-page try block of
create_pdf_with_reportlab before its trailing showPage: either some
exception was raised inside the body (the except branch still calls
showPage), or the body ran with the given extraction result. -/
inductive PageAttempt where
  | raised
  | ran (text : PyStr) (img : Option PageImage)
deriving DecidableEq

/-- One composed output page of create_pdf_with_reportlab. -/
inductive RLPage where
  | imageWithOverlay
  | imageOnly
  | blank
deriving DecidableEq

/-- The page loop of create_pdf_with_reportlab (lines 174-241): every
iteration emits exactly one page via showPage; a page whose image is
present gets the image (with the text overlay when requested and text
is nonempty), any other iteration - no image, or an exception - leaves
the page blank. -/
def reportlabPageOutputs (addOverlay : Bool) (attempts : List PageAttempt) :
    List RLPage :=
  attempts.map (fun a =>
    match a with
    | .raised => .blank
    | .ran text img =>
      match img with
      | some _ =>
        if addOverlay && !(text = []) then .imageWithOverlay else .imageOnly
      | none => .blank)

/-- The page loop of create_editable_pdf (lines 494-564): a page is
composed and appended to page_paths exactly when text is nonempty and
the image and boxes are present (the truthiness test of line 503);
other pages are skipped. -/
def editableKeptPages (results : List ExtractResult) : List ExtractResult :=
  results.filter (fun r => !(r.1 = []) && r.2.1.isSome && r.2.2.isSome)

/-- The merge step of create_editable_pdf (lines 566-603): when at least
one page was composed the kept pages are merged into the output
document; otherwise no output document is written and the function
returns False. -/
def editableFinalOutput (results : List ExtractResult) :
    Option (List ExtractResult) :=
  let kept := editableKeptPages results
  if 0 < kept.length then some kept else none

/-! Concrete inputs used by counterexamples and witnesses. -/

/-- A tall word box: 1000 pixels high, whose raw font estimate at
300 dpi would be 240 points. -/
def bigBox : WordBox := ⟨"X".data, 0, 0, 500, 1000, 95⟩

/-- A word box with a nonpositive confidence score, as pytesseract
reports for structural rows and noise. -/
def boxNoise : WordBox := ⟨"zz".data, 5, 5, 4, 4, -1⟩

/-- Three word boxes of equal height on drifting baselines: each
consecutive pair is within the same-line tolerance, the outer pair is
not. -/
def cexA : WordBox := ⟨"aa".data, 0, 0, 10, 10, 90⟩

/-- Second drifting box, baseline 4 points below cexA at 72 dpi. -/
def cexB : WordBox := ⟨"bb".data, 20, 4, 10, 10, 90⟩

/-- Third drifting box, baseline 8 points below cexA at 72 dpi. -/
def cexC : WordBox := ⟨"cc".data, 40, 8, 10, 10, 90⟩

/-- The reflow example input of the spec: a short all-caps line, a blank
line, then two body lines each ending in a period. -/
def c7Input : List PyStr :=
  ["HEADER".data, [], "Body text that continues.".data, "More body.".data]

/-- Extraction result of a page on which OCR recognized text. -/
def pageWithText : ExtractResult :=
  ("hello".data, some ⟨850, 1100⟩, some [boxHello])

/-- Extraction result of a page on which OCR recognized zero words: the
extracted text strips to empty while the image and the (row-free) boxes
dictionary are present. -/
def pageNoWords : ExtractResult := ([], some ⟨850, 1100⟩, some [])

/-- An environment in which the very first external call, the
rasterization, raises. -/
def envFail : OcrEnv :=
  ⟨.error "pixmap failure", fun _ => .error "unused",
    fun _ => .error "unused", fun _ => .error "unused"⟩

/-- An environment in which every external call succeeds but OCR finds
only whitespace and no word rows. -/
def envEmptyOcr : OcrEnv :=
  ⟨.ok [], fun _ => .ok ⟨100, 100⟩, fun _ => .ok "  ".data,
    fun _ => .ok []⟩

/-! Helper lemmas about the word-placement loop. -/

/-- Inversion of drawOpAt: an emitted operation comes from a positive
confidence box with nonempty stripped text, carries that text, the
clamped font size and the transformed y, and its x is the base transform
possibly shifted right by one space width. -/
theorem drawOpAt_some_inv (spaceW : ℚ → ℚ) (pageHeight dpi : ℚ)
    (boxes : List WordBox) (i : ℕ) (b : WordBox) (op : DrawOp)
    (hb : boxes[i]? = some b)
    (hop : drawOpAt spaceW pageHeight dpi boxes i = some op) :
    0 < b.conf ∧ pyStrip b.text ≠ [] ∧ op.y = yPt pageHeight dpi b ∧
      op.size = fontSize dpi b ∧ op.word = pyStrip b.text ∧
      (op.x = xPt dpi b ∨ op.x = xPt dpi b + spaceW (fontSize dpi b)) := by
  simp only [drawOpAt, hb] at hop
  by_cases hconf : 0 < b.conf
  · rw [if_pos hconf] at hop
    by_cases hw : pyStrip b.text = []
    · rw [if_pos hw] at hop
      simp at hop
    · rw [if_neg hw] at hop
      obtain rfl := (Option.some.inj hop).symm
      refine ⟨hconf, hw, rfl, rfl, rfl, ?_⟩
      cases i with
      | zero => exact Or.inl rfl
      | succ j =>
        cases hj : boxes[j]? with
        | none => simp [hj]
        | some prev =>
          simp only [hj]
          by_cases h1 : sameLineJudged pageHeight dpi prev b
          · by_cases h2 : closeGap spaceW dpi prev b
            · simp [h1, h2]
            · simp [h1, h2]
          · simp [h1]
  · rw [if_neg hconf] at hop
    simp at hop

/-- Claim C2: the font size used to draw a word equals the raw estimate
height * 72 / dpi clamped to the closed interval [8, 14]: never below 8,
never above 14, and equal to the raw estimate whenever that lies inside
the interval. -/
theorem c2_font_size_clamped (dpi : ℚ) (b : WordBox) (hdpi : 0 < dpi) :
    8 ≤ fontSize dpi b ∧ fontSize dpi b ≤ 14 ∧
      fontSize dpi b =
        (if rawFontSize dpi b < 8 then 8
         else if 14 < rawFontSize dpi b then 14 else rawFontSize dpi b) := by
  unfold fontSize
  refine ⟨le_max_right _ _, max_le ((min_le_right _ _).trans (by norm_num)) (by norm_num), ?_⟩
  by_cases hr8 : rawFontSize dpi b < 8
  · rw [if_pos hr8, min_eq_left (by linarith), max_eq_right (by linarith)]
  · by_cases hr14 : 14 < rawFontSize dpi b
    · rw [if_neg hr8, if_pos hr14, min_eq_right (by linarith),
        max_eq_left (by norm_num)]
    · rw [if_neg hr8, if_neg hr14, min_eq_left (by linarith),
        max_eq_left (by linarith)]

/-- Witness for C2 at the example of the spec: a 1000 pixel tall box at
300 dpi, whose raw estimate 240 is clamped to font size 14. -/
theorem c2_font_size_clamped_witness :
    (0:ℚ) < 300 ∧ (8 ≤ fontSize 300 bigBox ∧ fontSize 300 bigBox ≤ 14) ∧
      fontSize 300 bigBox = 14 := by
  have h := c2_font_size_clamped 300 bigBox (by norm_num)
  refine ⟨by norm_num, ⟨h.1, h.2.1⟩, ?_⟩
  rw [h.2.2]
  norm_num [rawFontSize, bigBox]

/-- Claim C9: a word box with confidence not above 0 is discarded, no
draw operation is emitted for it; every emitted draw operation comes
from a box of strictly positive confidence. -/
theorem c9_confidence_filter (spaceW : ℚ → ℚ) (pageHeight dpi : ℚ)
    (boxes : List WordBox) (i : ℕ) (b : WordBox)
    (hb : boxes[i]? = some b) :
    (b.conf ≤ 0 → drawOpAt spaceW pageHeight dpi boxes i = none) ∧
      (∀ op, drawOpAt spaceW pageHeight dpi boxes i = some op → 0 < b.conf) := by
  constructor
  · intro hc
    simp only [drawOpAt, hb]
    rw [if_neg (not_lt.mpr hc)]
  · intro op hop
    exact (drawOpAt_some_inv spaceW pageHeight dpi boxes i b op hb hop).1

/-- Witness for C9: the confidence -1 row emits nothing. -/
theorem c9_confidence_filter_witness :
    drawOpAt helvSpaceWidth 100 72 [boxNoise] 0 = none :=
  (c9_confidence_filter helvSpaceWidth 100 72 [boxNoise] 0 boxNoise rfl).1
    (by norm_num [boxNoise])

/-- Counterexample to claim C1 as stated: with two boxes on one raster
line separated by a small gap, the second word is drawn at
x = 12 + 2.78 = 739/50 points, not at left * 72 / dpi = 12 points,
because the same-line heuristic shifts it right by one space width. -/
theorem c1_placement_cex :
    drawOpAt helvSpaceWidth 100 72 [boxHello, boxWorld] 1 =
      some ⟨739/50, 90, 10, "world".data⟩ ∧
      xPt 72 boxWorld = 12 ∧ ((739 : ℚ)/50) ≠ 12 := by
  refine ⟨?_, by norm_num [xPt, boxWorld], by norm_num⟩
  norm_num [drawOpAt, boxHello, boxWorld, xPt, yPt, widthPt, fontSize, rawFontSize,
    sameLineJudged, closeGap, helvSpaceWidth, pyStrip]
  decide

/-- Claim C1 (amended): every draw operation emitted for a word box is
placed at y = page_height - (top + height) * 72 / dpi, and at
x = left * 72 / dpi except when the same-line space heuristic applies,
in which case x is that value plus one space width at the word's font
size. -/
theorem c1_placement_amended (spaceW : ℚ → ℚ) (pageHeight dpi : ℚ)
    (boxes : List WordBox) (i : ℕ) (b : WordBox) (op : DrawOp)
    (hb : boxes[i]? = some b)
    (hop : drawOpAt spaceW pageHeight dpi boxes i = some op) :
    op.y = pageHeight - (b.top + b.height) * 72 / dpi ∧
      (op.x = b.left * 72 / dpi ∨
        op.x = b.left * 72 / dpi + spaceW (fontSize dpi b)) := by
  have h := drawOpAt_some_inv spaceW pageHeight dpi boxes i b op hb hop
  refine ⟨?_, ?_⟩
  · rw [h.2.2.1]; rfl
  · rcases h.2.2.2.2.2 with hx | hx
    · exact Or.inl (by rw [hx]; rfl)
    · exact Or.inr (by rw [hx]; rfl)

/-- Witness for the amended C1: a single word with no predecessor is
drawn exactly at the transformed coordinates. -/
theorem c1_placement_witness :
    (⟨0, 90, 10, "Hello".data⟩ : DrawOp).y =
        100 - (boxHello.top + boxHello.height) * 72 / 72 ∧
      ((⟨0, 90, 10, "Hello".data⟩ : DrawOp).x = boxHello.left * 72 / 72 ∨
        (⟨0, 90, 10, "Hello".data⟩ : DrawOp).x =
          boxHello.left * 72 / 72 + helvSpaceWidth (fontSize 72 boxHello)) :=
  c1_placement_amended helvSpaceWidth 100 72 [boxHello] 0 boxHello
    ⟨0, 90, 10, "Hello".data⟩ rfl
    (by norm_num [drawOpAt, boxHello, xPt, yPt, fontSize, rawFontSize, pyStrip]
        decide)

/-- Claim C4: for consecutive word boxes the same-line judgment holds
exactly when the distance between the computed baselines is below half
the current font size, the gap test holds exactly when the horizontal
gap from the previous box's right edge to the current box's left edge
is below three space widths, and the word is drawn shifted right by a
single space width exactly when both hold. -/
theorem c4_same_line_space (spaceW : ℚ → ℚ) (pageHeight dpi : ℚ)
    (boxes : List WordBox) (j : ℕ) (a b : WordBox)
    (ha : boxes[j]? = some a) (hb : boxes[j+1]? = some b)
    (hconf : 0 < b.conf) (hw : pyStrip b.text ≠ []) :
    (sameLineJudged pageHeight dpi a b = true ↔
        |yPt pageHeight dpi b - yPt pageHeight dpi a| < fontSize dpi b / 2) ∧
    (closeGap spaceW dpi a b = true ↔
        xPt dpi b - (xPt dpi a + widthPt dpi a) < spaceW (fontSize dpi b) * 3) ∧
    drawOpAt spaceW pageHeight dpi boxes (j+1) =
      some ⟨if sameLineJudged pageHeight dpi a b ∧ closeGap spaceW dpi a b
            then xPt dpi b + spaceW (fontSize dpi b) else xPt dpi b,
            yPt pageHeight dpi b, fontSize dpi b, pyStrip b.text⟩ := by
  refine ⟨by simp [sameLineJudged], by simp [closeGap], ?_⟩
  simp only [drawOpAt, hb, if_pos hconf, if_neg hw, ha]
  by_cases h1 : sameLineJudged pageHeight dpi a b
  · by_cases h2 : closeGap spaceW dpi a b
    · simp [h1, h2]
    · simp [h1, h2]
  · simp [h1]

/-- Witness for C4 at two concrete boxes on one line: the emitted
operation matches the characterization. -/
theorem c4_same_line_space_witness :
    (sameLineJudged 100 72 boxHello boxWorld = true ↔
        |yPt 100 72 boxWorld - yPt 100 72 boxHello| < fontSize 72 boxWorld / 2) ∧
    (closeGap helvSpaceWidth 72 boxHello boxWorld = true ↔
        xPt 72 boxWorld - (xPt 72 boxHello + widthPt 72 boxHello) <
          helvSpaceWidth (fontSize 72 boxWorld) * 3) ∧
    drawOpAt helvSpaceWidth 100 72 [boxHello, boxWorld] 1 =
      some ⟨if sameLineJudged 100 72 boxHello boxWorld ∧
               closeGap helvSpaceWidth 72 boxHello boxWorld
            then xPt 72 boxWorld + helvSpaceWidth (fontSize 72 boxWorld)
            else xPt 72 boxWorld,
            yPt 100 72 boxWorld, fontSize 72 boxWorld, pyStrip boxWorld.text⟩ :=
  c4_same_line_space helvSpaceWidth 100 72 [boxHello, boxWorld] 0 boxHello boxWorld
    rfl rfl (by norm_num [boxWorld]) (by decide)

/-- Counterexample to claim C5 as stated: three equal-height boxes whose
baselines drift 4 points at a time (font size 10, threshold 5): each
consecutive pair is judged same-line, the outer pair is not, so the
judgment is not transitive. -/
theorem c5_same_line_cex :
    sameLineJudged 100 72 cexA cexB = true ∧
      sameLineJudged 100 72 cexB cexC = true ∧
      sameLineJudged 100 72 cexA cexC = false := by
  refine ⟨?_, ?_, ?_⟩ <;>
    · simp only [sameLineJudged, yPt, fontSize, rawFontSize, cexA, cexB, cexC,
        decide_eq_true_eq, decide_eq_false_iff_not]
      norm_num

/-- Claim C5 (amended): with equal box heights the same-line judgment is
symmetric, but it is not transitive (see the counterexample); chaining
two same-line judgments only bounds the outer baseline distance by the
full font size, twice the same-line threshold. -/
theorem c5_same_line_amended (pageHeight dpi : ℚ) (a b c : WordBox)
    (hab : a.height = b.height) (hbc : b.height = c.height) :
    (sameLineJudged pageHeight dpi a b = true ↔
        sameLineJudged pageHeight dpi b a = true) ∧
    (sameLineJudged pageHeight dpi a b = true →
      sameLineJudged pageHeight dpi b c = true →
      |yPt pageHeight dpi c - yPt pageHeight dpi a| < fontSize dpi c) := by
  have hfab : fontSize dpi a = fontSize dpi b := by
    simp [fontSize, rawFontSize, hab]
  have hfbc : fontSize dpi b = fontSize dpi c := by
    simp [fontSize, rawFontSize, hbc]
  constructor
  · simp only [sameLineJudged, decide_eq_true_eq, hfab, abs_sub_comm]
  · intro h1 h2
    simp only [sameLineJudged, decide_eq_true_eq] at h1 h2
    have htri : |yPt pageHeight dpi c - yPt pageHeight dpi a| ≤
        |yPt pageHeight dpi c - yPt pageHeight dpi b| +
          |yPt pageHeight dpi b - yPt pageHeight dpi a| := by
      exact abs_sub_le _ _ _
    rw [hfbc] at h1
    linarith

/-- Witness for the amended C5 at the three drifting boxes: symmetry of
the first pair, and the doubled bound for the outer pair. -/
theorem c5_same_line_witness :
    (sameLineJudged 100 72 cexA cexB = true ↔
        sameLineJudged 100 72 cexB cexA = true) ∧
      |yPt 100 72 cexC - yPt 100 72 cexA| < fontSize 72 cexC :=
  ⟨(c5_same_line_amended 100 72 cexA cexB cexC rfl rfl).1,
   (c5_same_line_amended 100 72 cexA cexB cexC rfl rfl).2
     (by simp only [sameLineJudged, yPt, fontSize, rawFontSize, cexA, cexB,
           decide_eq_true_eq]
         norm_num)
     (by simp only [sameLineJudged, yPt, fontSize, rawFontSize, cexB, cexC,
           decide_eq_true_eq]
         norm_num)⟩

/-- Claim C6: in the paragraph loop, the buffer is empty after a step
exactly when the stripped line is blank, shorter than 40 characters, or
ends in sentence punctuation; a blank line flushes a nonempty buffer as
a paragraph; a non-blank line meeting the flush condition appends the
joined buffer plus line as a paragraph and clears the buffer; any other
line is only accumulated. -/
theorem c6_paragraph_flush (st : ReflowState) (rawLine : PyStr) :
    ((reflowStep st rawLine).current = [] ↔
      (pyStrip rawLine = [] ∨ (pyStrip rawLine).length < 40 ∨
        endsWithPunct (pyStrip rawLine) = true)) ∧
    (pyStrip rawLine = [] → st.current ≠ [] →
      (reflowStep st rawLine).paragraphs =
        st.paragraphs ++ [joinSpace st.current]) ∧
    (pyStrip rawLine ≠ [] →
      ((pyStrip rawLine).length < 40 ∨ endsWithPunct (pyStrip rawLine) = true) →
      reflowStep st rawLine =
        ⟨st.paragraphs ++ [joinSpace (st.current ++ [pyStrip rawLine])], []⟩) ∧
    (pyStrip rawLine ≠ [] →
      ¬((pyStrip rawLine).length < 40 ∨ endsWithPunct (pyStrip rawLine) = true) →
      reflowStep st rawLine = ⟨st.paragraphs, st.current ++ [pyStrip rawLine]⟩) := by
  unfold reflowStep
  by_cases hblank : pyStrip rawLine = []
  · rw [if_pos hblank]
    by_cases hcur : st.current = []
    · rw [if_pos hcur]
      exact ⟨by simp [hblank, hcur], fun _ h => absurd hcur h,
        fun h _ => absurd hblank h, fun h _ => absurd hblank h⟩
    · rw [if_neg hcur]
      exact ⟨by simp [hblank], fun _ _ => rfl,
        fun h _ => absurd hblank h, fun h _ => absurd hblank h⟩
  · rw [if_neg hblank]
    by_cases hflush : endsWithPunct (pyStrip rawLine) = true ∨
        (pyStrip rawLine).length < 40
    · rw [if_pos (by simpa [Bool.or_eq_true, decide_eq_true_eq] using hflush)]
      refine ⟨by simpa [hblank] using hflush.symm, fun h _ => absurd h hblank,
        fun _ _ => rfl, fun _ hno => absurd hflush (by tauto)⟩
    · rw [if_neg (by simpa [Bool.or_eq_true, decide_eq_true_eq] using hflush)]
      refine ⟨?_, fun h _ => absurd h hblank,
        fun _ hyes => absurd (by tauto) hflush, fun _ _ => rfl⟩
      refine ⟨fun hc => absurd hc (by simp), fun hc => ?_⟩
      exfalso
      rcases hc with h | h | h
      · exact hblank h
      · exact hflush (Or.inr h)
      · exact hflush (Or.inl h)

/-- Witness for C6: a buffered long line followed by a period-terminated
line flushes both together as one paragraph. -/
theorem c6_paragraph_flush_witness :
    reflowStep ⟨[], ["unfinished clause".data]⟩ "It ends here.".data =
      ⟨[joinSpace (["unfinished clause".data] ++ [pyStrip "It ends here.".data])], []⟩ :=
  (c6_paragraph_flush ⟨[], ["unfinished clause".data]⟩ "It ends here.".data).2.2.1
    (by decide) (by decide)

/-- Counterexample to claim C7 as stated: the example input yields three
paragraphs, not two, because each body line ends with a period and is
flushed on its own. -/
theorem c7_reflow_example_cex :
    reflow c7Input =
      ["HEADER".data, "Body text that continues.".data, "More body.".data] ∧
      (reflow c7Input).length = 3 ∧ (reflow c7Input).length ≠ 2 := by
  decide

/-- Claim C7 (amended): the example input reflows to exactly three
paragraphs, of which precisely the first is classified as a heading. -/
theorem c7_reflow_example_amended :
    reflow c7Input =
      ["HEADER".data, "Body text that continues.".data, "More body.".data] ∧
      isHeading "HEADER".data = true ∧
      isHeading "Body text that continues.".data = false ∧
      isHeading "More body.".data = false := by
  decide

/-- Counterexample to claim C3 as stated: a two-page document whose
second page yields zero recognized words produces a final editable PDF
with one page, not two: the empty page is omitted. -/
theorem c3_blank_page_cex :
    (editableFinalOutput [pageWithText, pageNoWords]).map List.length = some 1 ∧
      (editableFinalOutput [pageWithText, pageNoWords]).map List.length ≠ some 2 := by
  decide

/-- Claim C3 (amended): in create_pdf_with_reportlab every input page
produces exactly one output page, blank when the page had no image or
raised; in create_editable_pdf only pages with nonempty extracted text
and present image and boxes are kept - a zero-word page is omitted from
the merged output - and the output document exists exactly when at least
one page was kept; the job never aborts in either loop. -/
theorem c3_blank_page_amended (addOverlay : Bool) (attempts : List PageAttempt)
    (results : List ExtractResult) :
    (reportlabPageOutputs addOverlay attempts).length = attempts.length ∧
    (∀ r ∈ editableKeptPages results, r.1 ≠ []) ∧
    (∀ r ∈ results, r.1 ≠ [] → r.2.1.isSome → r.2.2.isSome →
      r ∈ editableKeptPages results) ∧
    (editableFinalOutput results = none ↔ editableKeptPages results = []) := by
  refine ⟨List.length_map _ _, ?_, ?_, ?_⟩
  · intro r hr
    have := (List.mem_filter.mp hr).2
    simp only [Bool.and_eq_true, Bool.not_eq_true', decide_eq_false_iff_not] at this
    exact this.1.1
  · intro r hr h1 h2 h3
    refine List.mem_filter.mpr ⟨hr, ?_⟩
    simp only [Bool.and_eq_true, Bool.not_eq_true', decide_eq_false_iff_not]
    exact ⟨⟨h1, h2⟩, h3⟩
  · unfold editableFinalOutput
    by_cases h : 0 < (editableKeptPages results).length
    · rw [if_pos h]
      constructor
      · intro hc
        exact absurd hc (by simp)
      · intro hc
        rw [hc] at h
        exact absurd h (by simp)
    · rw [if_neg h]
      have hlen : (editableKeptPages results).length = 0 := by omega
      exact ⟨fun _ => List.length_eq_zero.mp hlen, fun _ => rfl⟩

/-- Witness for the amended C3: two reportlab iterations give two pages,
and the page with text is kept by the editable loop. -/
theorem c3_blank_page_witness :
    (reportlabPageOutputs true
        [PageAttempt.raised, PageAttempt.ran "hi".data (some ⟨850, 1100⟩)]).length =
      [PageAttempt.raised, PageAttempt.ran "hi".data (some ⟨850, 1100⟩)].length ∧
    pageWithText ∈ editableKeptPages [pageWithText, pageNoWords] := by
  have h := c3_blank_page_amended true
    [PageAttempt.raised, PageAttempt.ran "hi".data (some ⟨850, 1100⟩)]
    [pageWithText, pageNoWords]
  exact ⟨h.1, h.2.2.1 pageWithText (by simp) (by decide) (by rfl) (by rfl)⟩

/-- Claim C10: the per-page extraction wrappers are total: whenever any
internal rasterization or OCR step raises, the word-box variant returns
the empty string with None for the image and the boxes, and the
text-only variant returns the empty string; on the text component such
a failed page is indistinguishable from a page on which OCR found only
whitespace. -/
theorem c10_extract_total (env envOk envT : OcrEnv) (e eT : String)
    (t : PyStr) (img : PageImage) (bxs : List WordBox)
    (hfail : ocrBodyBoxes env = .error e)
    (hok : ocrBodyBoxes envOk = .ok (t, img, bxs)) (ht : pyStrip t = [])
    (hfailT : ocrBodyText envT = .error eT) :
    extract_text_from_page_boxes env = ([], none, none) ∧
    (extract_text_from_page_boxes envOk).1 = [] ∧
    (extract_text_from_page_boxes env).1 = (extract_text_from_page_boxes envOk).1 ∧
    extract_text_from_page_text envT = [] := by
  unfold extract_text_from_page_boxes extract_text_from_page_text
  rw [hfail, hok, hfailT]
  exact ⟨rfl, ht, ht.symm, rfl⟩

/-- Witness for C10: a failing rasterization and an all-whitespace OCR
run agree on the empty text component. -/
theorem c10_extract_total_witness :
    extract_text_from_page_boxes envFail = ([], none, none) ∧
      (extract_text_from_page_boxes envFail).1 =
        (extract_text_from_page_boxes envEmptyOcr).1 ∧
      extract_text_from_page_text envFail = [] := by
  have h := c10_extract_total envFail envEmptyOcr envFail "pixmap failure"
    "pixmap failure" "  ".data ⟨100, 100⟩ [] rfl rfl (by decide) rfl
  exact ⟨h.1, h.2.2.1, h.2.2.2⟩

/-! Helper lemmas about chunk orchestration. -/

/-- The chunk sizes are the per-start sizes mapped over the loop range. -/
theorem chunkSizes_eq_map (total ppc : ℕ) :
    chunkSizes total ppc =
      (pyRange total ppc).map (fun s => min (s + ppc) total - s) := by
  unfold chunkSizes chunkSpans
  rw [List.map_map]
  rfl

/-- Structural recursion of the chunk-size list: one chunk when the
document fits, otherwise a full chunk followed by the chunks of the
remaining pages. -/
theorem chunkSizes_rec (total ppc : ℕ) (hp : 0 < ppc) (ht : 0 < total) :
    chunkSizes total ppc =
      if total ≤ ppc then [total] else ppc :: chunkSizes (total - ppc) ppc := by
  by_cases h : total ≤ ppc
  · rw [if_pos h, chunkSizes_eq_map]
    unfold pyRange
    have hn : (total + ppc - 1) / ppc = 1 :=
      Nat.div_eq_of_lt_le (by omega) (by omega)
    rw [hn, List.range'_succ, List.range'_zero]
    simp only [List.map_cons, List.map_nil]
    congr 1
    omega
  · rw [if_neg h, chunkSizes_eq_map, chunkSizes_eq_map]
    unfold pyRange
    have e1 : (total + ppc - 1) / ppc = (total - ppc + ppc - 1) / ppc + 1 := by
      have e2 : total + ppc - 1 = (total - 1) + ppc := by omega
      have e3 : total - ppc + ppc - 1 = total - 1 := by omega
      rw [e2, e3, Nat.add_div_right _ hp]
    rw [e1, List.range'_succ]
    simp only [List.map_cons]
    congr 1
    · omega
    · rw [show (0 + ppc) = ppc + 0 from by omega, ← List.map_add_range',
        List.map_map]
      apply List.map_congr_left
      intro s _
      simp only [Function.comp_apply]
      omega

/-- The number of chunks is the ceiling of total over the chunk size,
computed as (total + ppc - 1) / ppc. -/
theorem chunkSizes_length (ppc : ℕ) (hp : 0 < ppc) :
    ∀ total, 0 < total →
      (chunkSizes total ppc).length = (total + ppc - 1) / ppc := by
  intro total
  induction total using Nat.strong_induction_on with
  | _ total ih =>
    intro ht
    rw [chunkSizes_rec total ppc hp ht]
    by_cases h : total ≤ ppc
    · rw [if_pos h]
      have hn : (total + ppc - 1) / ppc = 1 :=
        Nat.div_eq_of_lt_le (by omega) (by omega)
      simp [hn]
    · rw [if_neg h]
      have hrec := ih (total - ppc) (by omega) (by omega)
      simp only [List.length_cons, hrec]
      have e2 : total + ppc - 1 = (total - 1) + ppc := by omega
      have e3 : total - ppc + ppc - 1 = total - 1 := by omega
      rw [e2, e3, Nat.add_div_right _ hp]

/-- A positive document always produces at least one chunk. -/
theorem chunkSizes_ne_nil (ppc : ℕ) (hp : 0 < ppc) (total : ℕ) (ht : 0 < total) :
    chunkSizes total ppc ≠ [] := by
  intro hc
  have hl := chunkSizes_length ppc hp total ht
  rw [hc] at hl
  have hpos : 0 < (total + ppc - 1) / ppc := Nat.div_pos (by omega) hp
  simp only [List.length_nil] at hl
  omega

/-- Every chunk except the last holds exactly ppc pages. -/
theorem chunkSizes_dropLast (ppc : ℕ) (hp : 0 < ppc) :
    ∀ total, 0 < total →
      (chunkSizes total ppc).dropLast =
        List.replicate ((chunkSizes total ppc).length - 1) ppc := by
  intro total
  induction total using Nat.strong_induction_on with
  | _ total ih =>
    intro ht
    rw [chunkSizes_rec total ppc hp ht]
    by_cases h : total ≤ ppc
    · rw [if_pos h]
      simp
    · rw [if_neg h]
      have hne := chunkSizes_ne_nil ppc hp (total - ppc) (by omega)
      rw [List.dropLast_cons_of_ne_nil hne, ih (total - ppc) (by omega) (by omega)]
      have hlen : 0 < (chunkSizes (total - ppc) ppc).length :=
        List.length_pos.mpr hne
      simp only [List.length_cons]
      rw [show (chunkSizes (total - ppc) ppc).length + 1 - 1
            = ((chunkSizes (total - ppc) ppc).length - 1) + 1 from by omega,
        List.replicate_succ]

/-- The last chunk holds total mod ppc pages, or a full ppc when the
division is exact. -/
theorem chunkSizes_getLast (ppc : ℕ) (hp : 0 < ppc) :
    ∀ total, 0 < total →
      (chunkSizes total ppc).getLast? =
        some (if total % ppc = 0 then ppc else total % ppc) := by
  intro total
  induction total using Nat.strong_induction_on with
  | _ total ih =>
    intro ht
    rw [chunkSizes_rec total ppc hp ht]
    by_cases h : total ≤ ppc
    · rw [if_pos h]
      rcases eq_or_lt_of_le h with heq | hlt
      · rw [heq, Nat.mod_self, if_pos rfl]
        rfl
      · rw [Nat.mod_eq_of_lt hlt, if_neg (by omega)]
        rfl
    · rw [if_neg h]
      have hne := chunkSizes_ne_nil ppc hp (total - ppc) (by omega)
      obtain ⟨r, rs, hr⟩ := List.exists_cons_of_ne_nil hne
      rw [hr, List.getLast?_cons_cons, ← hr,
        ih (total - ppc) (by omega) (by omega)]
      have hmod : (total - ppc) % ppc = total % ppc := by
        conv_rhs => rw [show total = (total - ppc) + ppc from by omega]
        rw [Nat.add_mod_right]
      rw [hmod]

/-- Claim C8: a positive document split at a positive chunk size gives
exactly the ceiling of total over ppc chunks, every chunk but the last
holds ppc pages, the last holds total mod ppc pages (a full ppc when
divisible), and a 120-page document at 50 pages per chunk gives chunks
of 50, 50 and 20 pages. -/
theorem c8_chunk_orchestration (total ppc : ℕ) (hp : 0 < ppc) (ht : 0 < total) :
    (chunkSizes total ppc).length = (total + ppc - 1) / ppc ∧
    (chunkSizes total ppc).dropLast =
      List.replicate ((total + ppc - 1) / ppc - 1) ppc ∧
    (chunkSizes total ppc).getLast? =
      some (if total % ppc = 0 then ppc else total % ppc) ∧
    chunkSizes 120 50 = [50, 50, 20] := by
  refine ⟨chunkSizes_length ppc hp total ht, ?_,
    chunkSizes_getLast ppc hp total ht, by decide⟩
  rw [chunkSizes_dropLast ppc hp total ht, chunkSizes_length ppc hp total ht]

/-- Witness for C8 at the 120-page example. -/
theorem c8_chunk_orchestration_witness :
    (chunkSizes 120 50).length = (120 + 50 - 1) / 50 ∧
      chunkSizes 120 50 = [50, 50, 20] :=
  ⟨(c8_chunk_orchestration 120 50 (by decide) (by decide)).1,
   (c8_chunk_orchestration 120 50 (by decide) (by decide)).2.2.2⟩
